import Mathlib

/-!
Verification of the SAMA compliance pipeline (aion-compliance-agents).

Shallow embedding of the core pipeline operations:
* `SAMAComplianceSummaryAgent` — scoring engine (`_calculate_scores`),
  summary upsert (`_store_summary`), in-memory fallback storage.
* `SAMAAuditLoggingAgent` — audit logging (`log_event`) and the anomaly
  detector (`_detect_anomalies`) over Redis-style TTL counters.
* `SAMAKYCValidationAgent` — KYC validation flow (`validate_kyc`,
  `_retrieve_document`, `_send_events`).

Scores are modelled as rationals (the Python floats in play are small
decimal literals and short sums, so ℚ matches the intended arithmetic).
Dictionaries with optional keys become structures with `Option` fields.
-/

namespace Compliance

/-- A Kafka message: topic, key, and a string-keyed payload. -/
structure BusMessage where
  topic : String
  key : String
  payload : List (String × String)
deriving DecidableEq

/-- Modelled from the spec: `shared/kafka_handler.py` (class `KafkaHandler`,
method `send_event`) is not in the source tree; per spec §4.5 the bus has a
real broker client and an in-process mock that "stores every published
message in an ordered, inspectable buffer", and publish is fire-and-forget,
never raising.  Modelled as appending the message to an ordered buffer. -/
def send_event (bus : List BusMessage) (topic key : String)
    (payload : List (String × String)) : List BusMessage :=
  bus ++ [⟨topic, key, payload⟩]

namespace SAMAComplianceSummaryAgent

/-- One entry of the `documents` list consumed by `_calculate_scores`
(built in `_get_customer_documents`: id, type, compliant flag). -/
structure DocumentInfo where
  id : String
  type : String
  compliant : Bool
deriving DecidableEq

/-- One entry of the `validations` list consumed by `_calculate_scores`
(built in `_get_validation_results`).  `score` is `none` when the dict
has no `score` key (the Python code guards with `if 'score' in v`). -/
structure ValidationInfo where
  document_id : String
  status : String
  score : Option ℚ
deriving DecidableEq

/-- The dictionary returned by `_calculate_scores`. -/
structure ScoreResult where
  overall_score : ℚ
  compliant_count : ℕ
  status : String
  all_issues : List String
  all_recommendations : List String
deriving DecidableEq

/-- `required_types` local of `_calculate_scores`. -/
def required_types : List String :=
  ["commercial_registration", "national_id", "bank_statement"]

/-- `compliant_count` local: `sum(1 for doc in documents if doc.get('compliant', False))`. -/
def compliant_count (documents : List DocumentInfo) : ℕ :=
  (documents.filter (fun d => d.compliant)).length

/-- `validation_scores` local: `[v['score'] for v in validations if 'score' in v]`. -/
def validation_scores (validations : List ValidationInfo) : List ℚ :=
  validations.filterMap (fun v => v.score)

/-- `avg_validation_score` local:
`sum(validation_scores) / len(validation_scores) if validation_scores else 0`
(the Python condition is list non-emptiness). -/
def avg_validation_score (validations : List ValidationInfo) : ℚ :=
  if validation_scores validations = [] then 0
  else (validation_scores validations).sum / ((validation_scores validations).length : ℚ)

/-- `overall_score` local: `(doc_compliance_rate * 0.6) + (avg_validation_score * 0.4)`
when `total_docs > 0`, else `0`. -/
def overall_score (documents : List DocumentInfo) (validations : List ValidationInfo) : ℚ :=
  if documents.length > 0 then
    ((compliant_count documents : ℚ) / (documents.length : ℚ)) * (6/10)
      + avg_validation_score validations * (4/10)
  else 0

/-- The `status` local of `_calculate_scores` (threshold chain on the score). -/
def status_of (score : ℚ) : String :=
  if score ≥ 8/10 then "compliant"
  else if score ≥ 6/10 then "partially_compliant"
  else "non_compliant"

/-- `req_type.replace('_', ' ')`: the pattern is the single character `_`,
so replacing every occurrence is a character map. -/
def spaceWords (s : String) : String :=
  ⟨s.data.map (fun c => if c = '_' then ' ' else c)⟩

/-- The missing-mandatory-document-type loop of `_calculate_scores`:
the required types absent from `doc_types` (`if req_type not in doc_types`),
in `required_types` order. -/
def missing_types (documents : List DocumentInfo) : List String :=
  required_types.filter (fun t => decide (t ∉ documents.map (fun d => d.type)))

/-- The failed-validation loop of `_calculate_scores`:
one issue per validation whose status is not `passed`, with the
document id truncated to its first 8 characters (`val['document_id'][:8]`). -/
def failed_validation_issues (validations : List ValidationInfo) : List String :=
  (validations.filter (fun v => v.status != "passed")).map
    (fun v => "Document " ++ v.document_id.take 8 ++ " validation failed")

/-- `SAMAComplianceSummaryAgent._calculate_scores` (agno_summary_agent.py). -/
def calculate_scores (documents : List DocumentInfo) (validations : List ValidationInfo) :
    ScoreResult :=
  { overall_score := overall_score documents validations
    compliant_count := compliant_count documents
    status := status_of (overall_score documents validations)
    all_issues :=
      (missing_types documents).map (fun t => "Missing " ++ spaceWords t)
        ++ failed_validation_issues validations
    all_recommendations :=
      (missing_types documents).map (fun t => "Provide " ++ spaceWords t) }

/-- Spec-side quantity, from the spec's words: `documentComplianceRate =
compliantDocumentCount / totalDocumentCount` (0 if no documents). -/
def spec_documentComplianceRate (documents : List DocumentInfo) : ℚ :=
  if documents.length = 0 then 0
  else (compliant_count documents : ℚ) / (documents.length : ℚ)

/-- Spec-side quantity, from the spec's words: `meanValidationScore =
average(validation.score for all validations with a score)`, else 0. -/
def spec_meanValidationScore (validations : List ValidationInfo) : ℚ :=
  if validation_scores validations = [] then 0
  else (validation_scores validations).sum / ((validation_scores validations).length : ℚ)

/-- Spec-side quantity, from the spec's words:
`overallScore = 0.6 * documentComplianceRate + 0.4 * meanValidationScore`. -/
def spec_overallScore (documents : List DocumentInfo) (validations : List ValidationInfo) : ℚ :=
  (6/10) * spec_documentComplianceRate documents
    + (4/10) * spec_meanValidationScore validations

/-- Spec-side status thresholds: `≥ 0.8 → compliant`, `≥ 0.6 → partially_compliant`,
else `non_compliant`. -/
def spec_status (score : ℚ) : String :=
  if score ≥ 8/10 then "compliant"
  else if score ≥ 6/10 then "partially_compliant"
  else "non_compliant"

/-- The spec's worked scoring example: 3 documents, registration and identity
compliant, the third (not a financial statement) non-compliant. -/
def exampleDocs : List DocumentInfo :=
  [⟨"doc_reg_001", "commercial_registration", true⟩,
   ⟨"doc_id_002", "national_id", true⟩,
   ⟨"doc_tax_003", "tax_certificate", false⟩]

/-- The spec's worked scoring example: two passed validations scored 0.9 and 0.8. -/
def exampleVals : List ValidationInfo :=
  [⟨"doc_reg_001", "passed", some (9/10)⟩,
   ⟨"doc_id_002", "passed", some (8/10)⟩]

/-- A row of the `compliance_summaries` table (shared/models.py,
`ComplianceSummary`), restricted to the columns `_store_summary` writes.
`customer_id` carries a SQL `unique` constraint in the model; the theorems
below prove the upsert maintains that uniqueness. -/
structure SummaryRow where
  id : String
  customer_id : String
  total_documents : ℕ
  compliant_documents : ℕ
  overall_compliance_score : ℚ
  compliance_status : String
  summary_text : String
  issues_summary : List String
  recommendations_summary : List String
deriving DecidableEq

/-- The `result` dictionary built by `generate_summary` and handed to
`_store_summary` (timestamps omitted; `summary_id` is the md5 hex digest of
`"{customer_id}_{datetime.now()}"`). -/
structure SummaryResult where
  summary_id : String
  customer_id : String
  total_documents : ℕ
  validated_documents : ℕ
  compliant_documents : ℕ
  overall_compliance_score : ℚ
  compliance_status : String
  summary_text : String
  issues : List String
  recommendations : List String
deriving DecidableEq

/-- The update branch of `_store_summary`: SQLAlchemy `.filter_by(customer_id=…)
.first()` selects the first matching row, and the field assignments mutate that
row in place (its `id` and `customer_id` are not reassigned). -/
def update_existing (s : SummaryResult) : List SummaryRow → List SummaryRow
  | [] => []
  | r :: rest =>
    if r.customer_id == s.customer_id then
      { r with
        total_documents := s.total_documents
        compliant_documents := s.compliant_documents
        overall_compliance_score := s.overall_compliance_score
        compliance_status := s.compliance_status
        summary_text := s.summary_text
        issues_summary := s.issues
        recommendations_summary := s.recommendations } :: rest
    else r :: update_existing s rest

/-- The insert branch of `_store_summary`: a new `ComplianceSummary` row
(note: `validated_documents` is not among the constructor arguments in the
source, so it is not part of the stored row). -/
def new_summary_row (s : SummaryResult) : SummaryRow :=
  { id := s.summary_id
    customer_id := s.customer_id
    total_documents := s.total_documents
    compliant_documents := s.compliant_documents
    overall_compliance_score := s.overall_compliance_score
    compliance_status := s.compliance_status
    summary_text := s.summary_text
    issues_summary := s.issues
    recommendations_summary := s.recommendations }

/-- `SAMAComplianceSummaryAgent._store_summary`, database path: query for an
existing row with the customer's id; update it in place if present, otherwise
add a new row. -/
def store_summary (db : List SummaryRow) (s : SummaryResult) : List SummaryRow :=
  if db.any (fun r => r.customer_id == s.customer_id) then update_existing s db
  else db ++ [new_summary_row s]

/-- The effect of one `generate_summary` call on the `compliance_summaries`
table when the database is available: a cache hit returns the cached summary
before reaching `_store_summary` (table unchanged); otherwise the freshly
built result is stored via `store_summary`. -/
def generate_summary_db (db : List SummaryRow) (call : Bool × SummaryResult) :
    List SummaryRow :=
  if call.1 then db else store_summary db call.2

/-- Number of rows of the summary table holding the given customer id. -/
def summary_count (db : List SummaryRow) (customer_id : String) : ℕ :=
  (db.filter (fun r => r.customer_id == customer_id)).length

/-- `summary_id` generation in `generate_summary`:
`hashlib.md5(f"{customer_id}_{datetime.now()}".encode()).hexdigest()`.
The md5 hex digest is modelled by the hashed text itself; all that the
development uses is that digests of calls at distinct times are distinct,
which for the model is literal and for md5 is collision-freeness. -/
def summary_id_of (customer_id : String) (now : String) : String :=
  customer_id ++ "_" ++ now

/-- One assignment `self.memory_storage[summary['summary_id']] = summary` on
the in-memory fallback dict (insertion-ordered, overwrite on equal key). -/
def memory_storage_put (m : List (String × SummaryResult)) (k : String)
    (v : SummaryResult) : List (String × SummaryResult) :=
  if m.any (fun p => p.1 == k) then
    m.map (fun p => if p.1 == k then (k, v) else p)
  else m ++ [(k, v)]

/-- The effect of one `generate_summary` call (cache miss) on
`self.memory_storage` when the database is unavailable: `_store_summary`
falls back to keying the dict by the per-call `summary_id`, not by the
customer id.  `r` supplies the non-identifying fields of the built result. -/
def generate_summary_fallback (m : List (String × SummaryResult))
    (customer_id now : String) (r : SummaryResult) : List (String × SummaryResult) :=
  let sid := summary_id_of customer_id now
  memory_storage_put m sid { r with summary_id := sid, customer_id := customer_id }

/-- Number of entries of the fallback store whose stored summary belongs to
the given customer. -/
def memory_summary_count (m : List (String × SummaryResult)) (customer_id : String) : ℕ :=
  (m.filter (fun p => p.2.customer_id == customer_id)).length

/-- A concrete summary result used to instantiate witnesses. -/
def exampleResult : SummaryResult :=
  { summary_id := "sid_0"
    customer_id := "CUSTOMER_001"
    total_documents := 3
    validated_documents := 2
    compliant_documents := 2
    overall_compliance_score := 37/50
    compliance_status := "partially_compliant"
    summary_text := "Compliance Summary for Customer CUSTOMER_001"
    issues := ["Missing bank statement"]
    recommendations := ["Provide bank statement"] }

end SAMAComplianceSummaryAgent

namespace SAMAAuditLoggingAgent

/-- A Redis value with its optional absolute expiry time (seconds).
`expires_at = none` means no TTL is set (`INCR` on a fresh key). -/
structure RedisEntry where
  value : ℕ
  expires_at : Option ℕ
deriving DecidableEq

/-- The Redis key space used for counters, as a keyed list. -/
abbrev RedisState := List (String × RedisEntry)

/-- Whether an entry is still live at the given time (unexpired). -/
def entry_live (now : ℕ) (e : RedisEntry) : Bool :=
  match e.expires_at with
  | none => true
  | some t => now < t

/-- Look up a key, treating an expired entry as absent. -/
def redis_lookup (st : RedisState) (now : ℕ) (k : String) : Option RedisEntry :=
  match st.find? (fun p => p.1 == k) with
  | some p => if entry_live now p.2 then some p.2 else none
  | none => none

/-- Overwrite or append the entry stored under a key. -/
def redis_set_entry (st : RedisState) (k : String) (e : RedisEntry) : RedisState :=
  if st.any (fun p => p.1 == k) then
    st.map (fun p => if p.1 == k then (k, e) else p)
  else st ++ [(k, e)]

/-- Redis `INCR`: increment a live key, or (re)create an expired/absent key
at 1 with no TTL; returns the post-increment value. -/
def redis_incr (st : RedisState) (now : ℕ) (k : String) : ℕ × RedisState :=
  match redis_lookup st now k with
  | some e => (e.value + 1, redis_set_entry st k ⟨e.value + 1, e.expires_at⟩)
  | none => (1, redis_set_entry st k ⟨1, none⟩)

/-- Redis `EXPIRE`: set the TTL of a live key (no-op on absent/expired keys). -/
def redis_expire (st : RedisState) (now : ℕ) (k : String) (ttl : ℕ) : RedisState :=
  match redis_lookup st now k with
  | some e => redis_set_entry st k ⟨e.value, some (now + ttl)⟩
  | none => st

/-- The `event_data` dictionary passed to `log_event` / `_detect_anomalies`;
each field is `none` when the corresponding key is absent. -/
structure EventData where
  event_id : Option String
  agent_name : Option String
  customer_id : Option String
  action : Option String
  status : Option String
deriving DecidableEq

/-- Python `f"...{x}"` interpolation of a `dict.get` result: `None` prints
as the text `None`. -/
def pyStr : Option String → String
  | some s => s
  | none => "None"

/-- The repeated-failure anomaly message of `_detect_anomalies`. -/
def multiple_failures_msg (customer_id : Option String) : String :=
  "Multiple failures detected for customer " ++ pyStr customer_id

/-- The event-rate anomaly message of `_detect_anomalies`. -/
def high_rate_msg (event_type : String) : String :=
  "High event rate detected for " ++ event_type

/-- The per-customer failure-counter key of `_detect_anomalies`. -/
def failure_key (event_data : EventData) : String :=
  "audit:failures:" ++ (event_data.customer_id.getD "unknown")

/-- The per-event-type rate-counter key of `_detect_anomalies`. -/
def rate_key (event_type : String) : String :=
  "audit:rate:" ++ event_type

/-- `SAMAAuditLoggingAgent._detect_anomalies`: on a `failure`-status event,
increment the customer's failure counter (1 hour TTL) and flag an anomaly
when the count exceeds 5; then increment the event-type rate counter
(60 second TTL) and flag an anomaly when it exceeds 100.  Every Redis access
is guarded by `if self.redis_client:` (and wrapped in `try/except: pass`),
so with the cache unavailable no counter moves and no anomaly is appended. -/
def detect_anomalies (redis_available : Bool) (st : RedisState) (now : ℕ)
    (event_type : String) (event_data : EventData) : List String × RedisState :=
  let step1 : List String × RedisState :=
    if event_data.status == some "failure" && redis_available then
      let k := failure_key event_data
      let p := redis_incr st now k
      let st' := redis_expire p.2 now k 3600
      (if p.1 > 5 then [multiple_failures_msg event_data.customer_id] else [], st')
    else ([], st)
  if redis_available then
    let k := rate_key event_type
    let p := redis_incr step1.2 now k
    let st' := redis_expire p.2 now k 60
    (step1.1 ++ (if p.1 > 100 then [high_rate_msg event_type] else []), st')
  else step1

/-- The audit log entry built at the top of `log_event` (the `details`
field keeps the original payload, standing for `json.dumps(event_data)`). -/
structure LogEntry where
  event_type : String
  event_id : String
  agent_name : String
  customer_id : String
  action : String
  details : EventData
  status : String
  occurred_at : ℕ
deriving DecidableEq

/-- Availability of the audit agent's dependencies.  `db_at_init` is whether
`get_database_session()` succeeded in `__init__` (the in-memory `memory_logs`
list exists exactly when it did not); `db_ok` is whether a commit succeeds
now; `redis_available` covers every guarded Redis access. -/
structure AuditEnv where
  db_at_init : Bool
  db_ok : Bool
  redis_available : Bool
deriving DecidableEq

/-- The mutable state touched by `log_event`.  `alerts` models the
`audit:alert:*` keys written by `_handle_anomalies` (value-typed Redis
entries, kept apart from the numeric counter keys). -/
structure AuditState where
  db_logs : List LogEntry
  memory_logs : List LogEntry
  redis : RedisState
  alerts : List (String × String)
  bus : List BusMessage
deriving DecidableEq

/-- `SAMAAuditLoggingAgent._store_audit_log`: write to the database when the
session exists and the commit succeeds; on a commit failure the fallback
append is guarded by `hasattr(self, 'memory_logs')`, which is false when the
session was created at init, so the entry is dropped; with no session the
entry goes to `memory_logs`. -/
def store_audit_log (env : AuditEnv) (st : AuditState) (entry : LogEntry) : AuditState :=
  if env.db_at_init then
    if env.db_ok then { st with db_logs := st.db_logs ++ [entry] }
    else st
  else { st with memory_logs := st.memory_logs ++ [entry] }

/-- The daily metrics key of `_update_metrics`; `strftime('%Y%m%d')` is
modelled by the day index of the time value. -/
def daily_key (now : ℕ) (event_type : String) : String :=
  "audit:daily:" ++ toString (now / 86400) ++ ":" ++ event_type

/-- `SAMAAuditLoggingAgent._update_metrics`: increment the running and daily
counters for the event type (daily key kept for 7 days); all guarded on
Redis availability. -/
def update_metrics (env : AuditEnv) (st : RedisState) (now : ℕ)
    (event_type : String) : RedisState :=
  if env.redis_available then
    let st1 := (redis_incr st now ("audit:counter:" ++ event_type)).2
    let st2 := (redis_incr st1 now (daily_key now event_type)).2
    redis_expire st2 now (daily_key now event_type) (86400 * 7)
  else st

/-- `SAMAAuditLoggingAgent._handle_anomalies`: publish each anomaly on the
`audit-anomaly` topic and store it under a 1-hour alert key when Redis is
up.  Publishing never raises (spec §4.5). -/
def handle_anomalies (env : AuditEnv) (st : AuditState) (now : ℕ)
    (anomalies : List String) : AuditState :=
  anomalies.foldl
    (fun acc a =>
      let acc1 := { acc with bus := send_event acc.bus "audit-anomaly" "anomaly" [("anomaly", a)] }
      if env.redis_available then
        { acc1 with alerts := acc1.alerts ++ [("audit:alert:" ++ toString now, a)] }
      else acc1)
    st

/-- The dictionary returned by `log_event`. -/
structure LogResult where
  logged : Bool
  event_type : String
  occurred_at : ℕ
deriving DecidableEq

/-- `SAMAAuditLoggingAgent.log_event`: build the log entry (each `dict.get`
default as in the source), store it, update metrics, run anomaly detection,
handle any anomalies, and return `{"logged": True, ...}`. -/
def log_event (env : AuditEnv) (st : AuditState) (now : ℕ)
    (event_type : String) (event_data : EventData) : LogResult × AuditState :=
  let entry : LogEntry :=
    { event_type := event_type
      event_id := event_data.event_id.getD ""
      agent_name := event_data.agent_name.getD "unknown"
      customer_id := event_data.customer_id.getD ""
      action := event_data.action.getD event_type
      details := event_data
      status := event_data.status.getD "success"
      occurred_at := now }
  let st1 := store_audit_log env st entry
  let st2 := { st1 with redis := update_metrics env st1.redis now event_type }
  let det := detect_anomalies env.redis_available st2.redis now event_type event_data
  let st3 := { st2 with redis := det.2 }
  let st4 := if det.1 ≠ [] then handle_anomalies env st3 now det.1 else st3
  ({ logged := true, event_type := event_type, occurred_at := now }, st4)

/-- Run `_detect_anomalies` over a timed event sequence, collecting each
call's anomaly list. -/
def detect_run (redis_available : Bool) (st : RedisState)
    (events : List (ℕ × String × EventData)) : List (List String) × RedisState :=
  events.foldl
    (fun acc ev =>
      let d := detect_anomalies redis_available acc.2 ev.1 ev.2.1 ev.2.2
      (acc.1 ++ [d.1], d.2))
    ([], st)

/-- A failure-status audit event for a fixed customer, as logged by the
summary agent's failure path in the repository's integration tests. -/
def failureEvent : EventData :=
  { event_id := some "evt_fail"
    agent_name := some "ComplianceSummaryAgent"
    customer_id := some "CUSTOMER_001"
    action := some "generate_summary"
    status := some "failure" }

/-- Six failure events for the same customer within one hour
(timestamps 0, 600, …, 3000 seconds). -/
def sixFailures : List (ℕ × String × EventData) :=
  [(0, ("compliance-summary-generated", failureEvent)),
   (600, ("compliance-summary-generated", failureEvent)),
   (1200, ("compliance-summary-generated", failureEvent)),
   (1800, ("compliance-summary-generated", failureEvent)),
   (2400, ("compliance-summary-generated", failureEvent)),
   (3000, ("compliance-summary-generated", failureEvent))]

end SAMAAuditLoggingAgent

namespace SAMAKYCValidationAgent

/-- A row of the `documents` table as read by `_retrieve_document`
(shared/models.py `Document`, restricted to the selected columns; nullable
columns are `Option`). -/
structure DocumentRow where
  id : String
  extracted_text : String
  document_type : Option String
  customer_id : Option String
deriving DecidableEq

/-- A document held in the ChromaDB collection: id, stored text, and the
two metadata fields `_retrieve_document` reads (absent keys are `none`). -/
structure ChromaDoc where
  id : String
  text : String
  document_type : Option String
  customer_id : Option String
deriving DecidableEq

/-- The dictionary `_retrieve_document` returns: id, text, type, customer.
`type` stays optional because the database column may be NULL. -/
structure RetrievedDocument where
  id : String
  text : String
  type : Option String
  customer_id : Option String
deriving DecidableEq

/-- `SAMAKYCValidationAgent._retrieve_document`: try the database first
(skipped when the session is absent, fallen through on a query error or a
missing row), then ChromaDB (`metadata.get('document_type', 'unknown')`
defaults an absent metadata key), else `None`. -/
def retrieve_document (db_session db_ok : Bool) (db : List DocumentRow)
    (chroma : List ChromaDoc) (document_id : String) : Option RetrievedDocument :=
  match (if db_session && db_ok then db.find? (fun d => d.id == document_id) else none) with
  | some d => some ⟨d.id, d.extracted_text, d.document_type, d.customer_id⟩
  | none =>
    match chroma.find? (fun c => c.id == document_id) with
    | some c =>
      some ⟨document_id, c.text, some (c.document_type.getD "unknown"), c.customer_id⟩
    | none => none

/-- The dictionary a type-specific rule check returns (each `validation.get`
in `_perform_validation` has a default, so every field is optional). -/
structure RuleCheckResult where
  status : Option String
  score : Option ℚ
  identity_verified : Option Bool
  address_verified : Option Bool
  business_verified : Option Bool
  issues : Option (List String)
  recommendations : Option (List String)
deriving DecidableEq

/-- `SAMAKYCValidationAgent._validate_generic`: unknown document types get a
`pending` result at score 0.5 for manual review. -/
def validate_generic (_text : String) : RuleCheckResult :=
  { status := some "pending"
    score := some (1/2)
    identity_verified := none
    address_verified := none
    business_verified := none
    issues := some ["Document type not recognized"]
    recommendations := some ["Manual review required"] }

/-- The three regex-based per-type rule checks of the agent
(`_validate_commercial_registration`, `_validate_national_id`,
`_validate_bank_statement`).  The spec treats these as external
collaborators ("a rule-check function per document type supplied
externally", §6; "validation rules delegated to type-specific checks, out
of scope here", §4.6), so they are a parameter of the flow; no claim
depends on their internals. -/
structure TypeCheckers where
  commercial_registration : String → RuleCheckResult
  national_id : String → RuleCheckResult
  bank_statement : String → RuleCheckResult

/-- The result dictionary built by `_perform_validation`. -/
structure ValidationResult where
  validation_id : String
  document_id : String
  customer_id : String
  document_type : Option String
  validation_status : String
  validation_score : ℚ
  identity_verified : Bool
  address_verified : Bool
  business_verified : Bool
  issues : List String
  recommendations : List String
deriving DecidableEq

/-- `SAMAKYCValidationAgent._perform_validation`: dispatch on
`document.get('type', 'unknown')` to the per-type check (anything else,
including a NULL type, goes to `_validate_generic`), then assemble the
result with the source's `get` defaults.  `validation_id` is the md5 hex
digest of `"{document_id}_{datetime.now()}"`, modelled as in
`summary_id_of`; the Ollama enhancement branch is inactive (the LLM is an
out-of-scope collaborator, spec §1). -/
def perform_validation (checks : TypeCheckers) (validation_id : String)
    (document : RetrievedDocument) (customer_id : String) : ValidationResult :=
  let validation :=
    if document.type == some "commercial_registration" then
      checks.commercial_registration document.text
    else if document.type == some "national_id" then
      checks.national_id document.text
    else if document.type == some "bank_statement" then
      checks.bank_statement document.text
    else validate_generic document.text
  { validation_id := validation_id
    document_id := document.id
    customer_id := customer_id
    document_type := document.type
    validation_status := validation.status.getD "pending"
    validation_score := validation.score.getD 0
    identity_verified := validation.identity_verified.getD false
    address_verified := validation.address_verified.getD false
    business_verified := validation.business_verified.getD false
    issues := validation.issues.getD []
    recommendations := validation.recommendations.getD [] }

/-- Payload of the `kyc-validation-completed` event in `_send_events`
(rationals and timestamps rendered to strings). -/
def completed_payload (now : String) (validation : ValidationResult) :
    List (String × String) :=
  [("validation_id", validation.validation_id),
   ("document_id", validation.document_id),
   ("customer_id", validation.customer_id),
   ("status", validation.validation_status),
   ("score", toString validation.validation_score),
   ("validated_at", now)]

/-- Payload of the `compliance-summary-requested` event in `_send_events`. -/
def summary_request_payload (now : String) (validation : ValidationResult) :
    List (String × String) :=
  [("customer_id", validation.customer_id),
   ("validation_id", validation.validation_id),
   ("requested_at", now)]

/-- `SAMAKYCValidationAgent._send_events`: always publish
`kyc-validation-completed` keyed by the document id, and additionally
publish `compliance-summary-requested` keyed by the customer id exactly
when the validation status is `passed`. -/
def send_events (bus : List BusMessage) (now : String)
    (validation : ValidationResult) : List BusMessage :=
  let bus1 := send_event bus "kyc-validation-completed" validation.document_id
      (completed_payload now validation)
  if validation.validation_status == "passed" then
    send_event bus1 "compliance-summary-requested" validation.customer_id
      (summary_request_payload now validation)
  else bus1

/-- Availability of the KYC agent's dependencies: the Redis cache, the
database session, and whether database queries succeed now. -/
structure KYCEnv where
  redis_available : Bool
  db_session : Bool
  db_ok : Bool
deriving DecidableEq

/-- State touched by `validate_kyc`: the `kyc:{documentId}` cache, the two
document stores, the stored validation records (database or memory path),
and the event bus buffer. -/
structure KYCState where
  cache : List (String × ValidationResult)
  db : List DocumentRow
  chroma : List ChromaDoc
  stored : List ValidationResult
  bus : List BusMessage

/-- The cache read at the top of `validate_kyc` (`_get_from_cache` returns
`None` when Redis is down or the key is absent). -/
def cache_lookup (env : KYCEnv) (st : KYCState) (document_id : String) :
    Option ValidationResult :=
  if env.redis_available then
    (st.cache.find? (fun p => p.1 == "kyc:" ++ document_id)).map (fun p => p.2)
  else none

/-- `_save_to_cache` under the `kyc:{documentId}` key (1 hour TTL, overwrite
on equal key). -/
def cache_put (c : List (String × ValidationResult)) (k : String)
    (v : ValidationResult) : List (String × ValidationResult) :=
  if c.any (fun p => p.1 == k) then
    c.map (fun p => if p.1 == k then (k, v) else p)
  else c ++ [(k, v)]

/-- The value `validate_kyc` returns: the cached dictionary on a cache hit,
the `{"status": "error", "message": ...}` dictionary when no document is
found, or the fresh validation result. -/
inductive KYCReturn where
  | cached (result : ValidationResult)
  | error (message : String)
  | completed (result : ValidationResult)
deriving DecidableEq

/-- `SAMAKYCValidationAgent.validate_kyc`: cache check → `_retrieve_document`
(hard `Document not found` error when both stores miss, nothing stored, no
event published) → `_perform_validation` → `_store_validation` → cache write
→ `_send_events`. -/
def validate_kyc (checks : TypeCheckers) (env : KYCEnv) (st : KYCState)
    (now : String) (document_id customer_id : String) : KYCReturn × KYCState :=
  match cache_lookup env st document_id with
  | some r => (.cached r, st)
  | none =>
    match retrieve_document env.db_session env.db_ok st.db st.chroma document_id with
    | none => (.error "Document not found", st)
    | some doc =>
      let result := perform_validation checks (document_id ++ "_" ++ now) doc customer_id
      let st1 := { st with stored := st.stored ++ [result] }
      let st2 :=
        if env.redis_available then
          { st1 with cache := cache_put st1.cache ("kyc:" ++ document_id) result }
        else st1
      let st3 := { st2 with bus := send_events st2.bus now result }
      (.completed result, st3)

/-- Rule checkers that pass every document, for witnesses. -/
def passChecks : TypeCheckers :=
  { commercial_registration := fun _ =>
      { status := some "passed", score := some (4/5),
        identity_verified := none, address_verified := none,
        business_verified := some true, issues := some [],
        recommendations := some [] }
    national_id := fun _ =>
      { status := some "passed", score := some (9/10),
        identity_verified := some true, address_verified := none,
        business_verified := none, issues := some [],
        recommendations := some [] }
    bank_statement := fun _ =>
      { status := some "passed", score := some (4/5),
        identity_verified := none, address_verified := some true,
        business_verified := none, issues := some [],
        recommendations := some [] } }

/-- A KYC state with every store empty. -/
def emptyState : KYCState :=
  { cache := [], db := [], chroma := [], stored := [], bus := [] }

/-- A concrete KYC state with one commercial-registration document in the
database, for witnesses. -/
def exampleState : KYCState :=
  { cache := []
    db := [⟨"doc_reg_001", "Commercial Registration 1010345678 SAR",
            some "commercial_registration", some "CUSTOMER_001"⟩]
    chroma := []
    stored := []
    bus := [] }

end SAMAKYCValidationAgent

/-! ## Theorems -/

namespace SAMAComplianceSummaryAgent

/-- The source's status chain and the spec's threshold table are the same
function. -/
theorem status_of_eq_spec_status (x : ℚ) : status_of x = spec_status x := rfl

/-- On a non-empty document list the source's score expression equals the
spec's `0.6 * documentComplianceRate + 0.4 * meanValidationScore`. -/
theorem overall_score_eq_spec (documents : List DocumentInfo)
    (validations : List ValidationInfo) (h : documents ≠ []) :
    overall_score documents validations = spec_overallScore documents validations := by
  have hlen : documents.length ≠ 0 := by
    simpa [List.length_eq_zero] using h
  unfold overall_score spec_overallScore spec_documentComplianceRate
    avg_validation_score spec_meanValidationScore
  rw [if_pos (Nat.pos_of_ne_zero hlen), if_neg hlen]
  rcases eq_or_ne (validation_scores validations) [] with he | he
  · rw [if_pos he]; ring
  · rw [if_neg he]; ring

/-- C3: for every non-empty document list the scoring computation returns
`overallScore = 0.6 * (compliantDocumentCount / totalDocumentCount)
+ 0.4 * meanValidationScore` (mean 0 when no validation carries a score) and
assigns the status by the 0.8 / 0.6 thresholds; on the spec's example —
3 documents with 2 compliant and validations scored 0.9 and 0.8 — the
overall score is exactly 0.74 with status `partially_compliant`. -/
theorem calculate_scores_matches_spec :
    (∀ (documents : List DocumentInfo) (validations : List ValidationInfo),
        documents ≠ [] →
          (calculate_scores documents validations).overall_score
              = spec_overallScore documents validations ∧
          (calculate_scores documents validations).status
              = spec_status (spec_overallScore documents validations))
    ∧ (calculate_scores exampleDocs exampleVals).overall_score = 37/50
    ∧ (calculate_scores exampleDocs exampleVals).status = "partially_compliant" := by
  refine ⟨fun documents validations h => ?_, ?_, ?_⟩
  · have hs := overall_score_eq_spec documents validations h
    refine ⟨hs, ?_⟩
    show status_of (overall_score documents validations) = _
    rw [hs, status_of_eq_spec_status]
  · norm_num [calculate_scores, overall_score, compliant_count, avg_validation_score,
      validation_scores, exampleDocs, exampleVals, List.filterMap_cons, List.cons_ne_nil]
  · norm_num [calculate_scores, status_of, overall_score, compliant_count,
      avg_validation_score, validation_scores, exampleDocs, exampleVals,
      List.filterMap_cons, List.cons_ne_nil]

/-- Witness for `calculate_scores_matches_spec` at the spec's example input. -/
theorem calculate_scores_matches_spec_witness :
    (calculate_scores exampleDocs exampleVals).overall_score
        = spec_overallScore exampleDocs exampleVals ∧
    (calculate_scores exampleDocs exampleVals).status
        = spec_status (spec_overallScore exampleDocs exampleVals) :=
  calculate_scores_matches_spec.1 exampleDocs exampleVals (by decide)

/-- C1 counterexample: with no documents and one validation scored 0.9, the
code returns an overall score of 0, while the claimed formula
`0.6 * documentComplianceRate + 0.4 * meanValidationScore` gives 0.36: the
claim fails at this input. -/
theorem empty_docs_score_counterexample :
    (calculate_scores [] [⟨"doc_reg_001", "passed", some (9/10)⟩]).overall_score = 0
    ∧ (6/10 : ℚ) * spec_documentComplianceRate []
        + (4/10) * spec_meanValidationScore [⟨"doc_reg_001", "passed", some (9/10)⟩]
        = 9/25
    ∧ (0 : ℚ) ≠ 9/25 := by
  refine ⟨?_, ?_, by norm_num⟩
  · norm_num [calculate_scores, overall_score]
  · norm_num [spec_documentComplianceRate, spec_meanValidationScore, validation_scores,
      List.filterMap_cons]

/-- C1 (amended): for every call of the scoring computation with an empty
document list and a non-empty validation list whose entries carry scores,
documentComplianceRate is 0 and the returned overall score is 0 — the
`0.4 * meanValidationScore` term is skipped when there are no documents. -/
theorem calculate_scores_empty_docs_zero :
    ∀ (validations : List ValidationInfo),
      validations ≠ [] → (∀ v ∈ validations, v.score.isSome) →
        (calculate_scores [] validations).overall_score = 0
        ∧ spec_documentComplianceRate [] = 0 := by
  intro validations _ _
  exact ⟨by norm_num [calculate_scores, overall_score],
         by norm_num [spec_documentComplianceRate]⟩

/-- Witness for `calculate_scores_empty_docs_zero` at a one-validation input. -/
theorem calculate_scores_empty_docs_zero_witness :
    (calculate_scores [] [⟨"doc_reg_001", "passed", some (9/10)⟩]).overall_score = 0
    ∧ spec_documentComplianceRate [] = 0 :=
  calculate_scores_empty_docs_zero [⟨"doc_reg_001", "passed", some (9/10)⟩]
    (by decide) (by decide)

/-- C9: the scoring computation is deterministic — two calls on identical
document and validation inputs return identical outputs (the embedding is a
pure function of its two arguments, so it touches no state). -/
theorem calculate_scores_deterministic :
    ∀ (docs₁ docs₂ : List DocumentInfo) (vals₁ vals₂ : List ValidationInfo),
      docs₁ = docs₂ → vals₁ = vals₂ →
        calculate_scores docs₁ vals₁ = calculate_scores docs₂ vals₂ := by
  intro _ _ _ _ h₁ h₂
  rw [h₁, h₂]

/-- Witness for `calculate_scores_deterministic` at the example input. -/
theorem calculate_scores_deterministic_witness :
    calculate_scores exampleDocs exampleVals = calculate_scores exampleDocs exampleVals :=
  calculate_scores_deterministic exampleDocs exampleDocs exampleVals exampleVals rfl rfl

/-- The update branch does not change the customer ids of the table rows. -/
theorem update_existing_customer_ids (s : SummaryResult) (db : List SummaryRow) :
    (update_existing s db).map (fun r => r.customer_id)
      = db.map (fun r => r.customer_id) := by
  induction db with
  | nil => rfl
  | cons r rest ih =>
    by_cases h : (r.customer_id == s.customer_id)
    · simp [update_existing, h]
    · simp [update_existing, h, ih]

/-- The update branch does not change the primary keys of the table rows. -/
theorem update_existing_ids (s : SummaryResult) (db : List SummaryRow) :
    (update_existing s db).map (fun r => r.id) = db.map (fun r => r.id) := by
  induction db with
  | nil => rfl
  | cons r rest ih =>
    by_cases h : (r.customer_id == s.customer_id)
    · simp [update_existing, h]
    · simp [update_existing, h, ih]

/-- The update branch inserts no row. -/
theorem update_existing_length (s : SummaryResult) (db : List SummaryRow) :
    (update_existing s db).length = db.length := by
  have := congrArg List.length (update_existing_ids s db)
  simpa using this

/-- Per-customer row counts only depend on the customer-id column. -/
theorem summary_count_eq_of_map_eq (db₁ db₂ : List SummaryRow) (X : String)
    (h : db₁.map (fun r => r.customer_id) = db₂.map (fun r => r.customer_id)) :
    summary_count db₁ X = summary_count db₂ X := by
  have e : ∀ db : List SummaryRow,
      summary_count db X
        = ((db.map (fun r => r.customer_id)).filter (fun c => c == X)).length := by
    intro db
    induction db with
    | nil => rfl
    | cons r rest ih =>
      by_cases hr : (r.customer_id == X)
      · simp [summary_count, List.filter_cons, hr] at ih ⊢; omega
      · simp [summary_count, List.filter_cons, hr] at ih ⊢; omega
  rw [e, e, h]

/-- Per-customer row counts add over table concatenation. -/
theorem summary_count_append (db₁ db₂ : List SummaryRow) (X : String) :
    summary_count (db₁ ++ db₂) X = summary_count db₁ X + summary_count db₂ X := by
  simp [summary_count, List.filter_append]

/-- A failed existence query means the customer has no row. -/
theorem summary_count_eq_zero_of_not_any (db : List SummaryRow) (c : String)
    (h : ¬ db.any (fun r => r.customer_id == c)) :
    summary_count db c = 0 := by
  simp only [List.any_eq_true, not_exists] at h
  simp only [summary_count, List.length_eq_zero, List.filter_eq_nil_iff]
  intro r hr
  exact fun hc => (h r) ⟨hr, hc⟩

/-- One `_store_summary` call keeps every customer's row count at most 1. -/
theorem store_summary_count_le (db : List SummaryRow) (s : SummaryResult) (X : String)
    (h : summary_count db X ≤ 1) :
    summary_count (store_summary db s) X ≤ 1 := by
  unfold store_summary
  by_cases hex : db.any (fun r => r.customer_id == s.customer_id)
  · rw [if_pos hex]
    rw [summary_count_eq_of_map_eq _ db X (update_existing_customer_ids s db)]
    exact h
  · rw [if_neg hex, summary_count_append]
    rcases eq_or_ne X s.customer_id with rfl | hne
    · rw [summary_count_eq_zero_of_not_any db s.customer_id hex]
      simp [summary_count, new_summary_row]
    · have : summary_count [new_summary_row s] X = 0 := by
        simp [summary_count, new_summary_row, List.filter_cons]
        exact fun hc => absurd hc.symm hne
      omega

/-- Starting from an empty table, any sequence of `generate_summary` calls
leaves at most one summary row per customer. -/
theorem generate_summary_db_invariant (calls : List (Bool × SummaryResult)) (X : String) :
    summary_count (calls.foldl generate_summary_db []) X ≤ 1 := by
  suffices h : ∀ db : List SummaryRow, (∀ Y, summary_count db Y ≤ 1) →
      ∀ Y, summary_count (calls.foldl generate_summary_db db) Y ≤ 1 by
    exact h [] (fun Y => by simp [summary_count]) X
  induction calls with
  | nil => intro db h Y; simpa using h Y
  | cons c rest ih =>
    intro db h Y
    simp only [List.foldl_cons]
    apply ih
    intro Z
    unfold generate_summary_db
    by_cases hc : c.1
    · simpa [hc] using h Z
    · simp only [hc, if_false]
      exact store_summary_count_le db c.2 Z (h Z)

/-- C2: when a summary row for the customer already exists, `_store_summary`
updates it in place (no row added, primary keys unchanged); and after any
finite sequence of `generate_summary` calls against an initially empty
table, at most one `ComplianceSummary` row exists per customer. -/
theorem store_summary_unique_per_customer :
    (∀ (db : List SummaryRow) (s : SummaryResult),
        db.any (fun r => r.customer_id == s.customer_id) →
          (store_summary db s).length = db.length ∧
          (store_summary db s).map (fun r => r.id) = db.map (fun r => r.id))
    ∧ (∀ (calls : List (Bool × SummaryResult)) (X : String),
        summary_count (calls.foldl generate_summary_db []) X ≤ 1) := by
  constructor
  · intro db s hex
    unfold store_summary
    rw [if_pos hex]
    exact ⟨update_existing_length s db, update_existing_ids s db⟩
  · exact generate_summary_db_invariant

/-- Witness for `store_summary_unique_per_customer`: regenerating the example
customer's summary against a table already holding their row. -/
theorem store_summary_unique_per_customer_witness :
    (store_summary [new_summary_row exampleResult] exampleResult).length
        = [new_summary_row exampleResult].length
    ∧ (store_summary [new_summary_row exampleResult] exampleResult).map (fun r => r.id)
        = [new_summary_row exampleResult].map (fun r => r.id) :=
  store_summary_unique_per_customer.1 [new_summary_row exampleResult] exampleResult
    (by decide)

/-- C10: on the database-unavailable fallback path, two `generate_summary`
calls for the same customer at distinct times store under two distinct
summary-id keys, so the in-memory store holds two summary records for that
customer — more than one, violating the at-most-one-per-subject invariant. -/
theorem fallback_store_duplicate_summaries :
    memory_summary_count
      (generate_summary_fallback
        (generate_summary_fallback [] "CUSTOMER_001" "2025-01-01 10:00:00" exampleResult)
        "CUSTOMER_001" "2025-01-01 10:05:00" exampleResult)
      "CUSTOMER_001" = 2
    ∧ (generate_summary_fallback
        (generate_summary_fallback [] "CUSTOMER_001" "2025-01-01 10:00:00" exampleResult)
        "CUSTOMER_001" "2025-01-01 10:05:00" exampleResult).map (fun p => p.1)
        = [summary_id_of "CUSTOMER_001" "2025-01-01 10:00:00",
           summary_id_of "CUSTOMER_001" "2025-01-01 10:05:00"]
    ∧ 1 < 2 := by
  refine ⟨by decide, by decide, by decide⟩

/-- C8: for each mandatory document type absent from the documents the result
carries a missing-document issue and a matching recommendation, and for each
validation not in `passed` status it carries a failed-validation issue naming
the first 8 characters of the document id. -/
theorem calculate_scores_issue_generation :
    ∀ (documents : List DocumentInfo) (validations : List ValidationInfo),
      (∀ t ∈ required_types, t ∉ documents.map (fun d => d.type) →
        ("Missing " ++ spaceWords t) ∈ (calculate_scores documents validations).all_issues ∧
        ("Provide " ++ spaceWords t) ∈ (calculate_scores documents validations).all_recommendations)
      ∧ (∀ v ∈ validations, v.status ≠ "passed" →
          ("Document " ++ v.document_id.take 8 ++ " validation failed")
              ∈ (calculate_scores documents validations).all_issues) := by
  intro documents validations
  constructor
  · intro t ht hmem
    have htm : t ∈ missing_types documents := by
      simp only [missing_types, List.mem_filter, decide_eq_true_eq]
      exact ⟨ht, hmem⟩
    exact ⟨List.mem_append_left _ (List.mem_map_of_mem _ htm),
           List.mem_map_of_mem _ htm⟩
  · intro v hv hst
    apply List.mem_append_right
    apply List.mem_map_of_mem
    simp [List.mem_filter, hv, hst]

/-- Witness for `calculate_scores_issue_generation`: the example documents
miss the bank statement, and a failed validation of a long document id is
reported under its 8-character prefix. -/
theorem calculate_scores_issue_generation_witness :
    (("Missing " ++ spaceWords "bank_statement")
        ∈ (calculate_scores exampleDocs exampleVals).all_issues
      ∧ ("Provide " ++ spaceWords "bank_statement")
        ∈ (calculate_scores exampleDocs exampleVals).all_recommendations)
    ∧ ("Document " ++ ("doc_tax_003_long".take 8) ++ " validation failed")
        ∈ (calculate_scores exampleDocs
            [⟨"doc_tax_003_long", "failed", some (1/2)⟩]).all_issues :=
  ⟨(calculate_scores_issue_generation exampleDocs exampleVals).1 "bank_statement"
      (by decide) (by decide),
   (calculate_scores_issue_generation exampleDocs
      [⟨"doc_tax_003_long", "failed", some (1/2)⟩]).2
      ⟨"doc_tax_003_long", "failed", some (1/2)⟩
      (List.mem_singleton_self _) (by decide)⟩

end SAMAComplianceSummaryAgent

namespace SAMAAuditLoggingAgent

/-- The two anomaly messages never coincide (their fixed prefixes differ at
the first character). -/
theorem multiple_failures_msg_ne_high_rate_msg (cid : Option String) (et : String) :
    multiple_failures_msg cid ≠ high_rate_msg et := by
  obtain ⟨l2⟩ := et
  have h2 : (high_rate_msg ⟨l2⟩).data.head? = some 'H' := rfl
  have h1 : (multiple_failures_msg cid).data.head? = some 'M' := by
    rcases cid with _ | s
    · rfl
    · obtain ⟨l1⟩ := s; rfl
  intro h
  rw [h, h2] at h1
  exact absurd h1 (by decide)

/-- On a `failure`-status event with the counter storage available, the
repeated-failure anomaly is raised exactly when the incremented per-customer
failure count exceeds 5. -/
theorem detect_anomalies_failure_iff :
    ∀ (st : RedisState) (now : ℕ) (event_type : String) (event_data : EventData),
      event_data.status = some "failure" →
        (multiple_failures_msg event_data.customer_id
            ∈ (detect_anomalies true st now event_type event_data).1
          ↔ 5 < (redis_incr st now (failure_key event_data)).1) := by
  intro st now et ed h
  simp only [detect_anomalies, h, Bool.and_true]
  have hbeq : ((some "failure" : Option String) == some "failure") = true := by decide
  rw [hbeq]
  simp only [if_true]
  by_cases h5 : (redis_incr st now (failure_key ed)).1 > 5
  · simp only [if_pos h5]
    constructor
    · intro _; exact h5
    · intro _
      by_cases hr : (redis_incr
          (redis_expire (redis_incr st now (failure_key ed)).2 now (failure_key ed) 3600)
          now (rate_key et)).1 > 100
      · simp [hr]
      · simp [hr]
  · simp only [if_neg h5]
    constructor
    · intro hmem
      exfalso
      by_cases hr : (redis_incr
          (redis_expire (redis_incr st now (failure_key ed)).2 now (failure_key ed) 3600)
          now (rate_key et)).1 > 100
      · simp [hr] at hmem
        exact multiple_failures_msg_ne_high_rate_msg ed.customer_id et hmem
      · simp [hr] at hmem
    · intro h5'; exact absurd h5' h5

/-- C4: running the detector over 6 failure-status events for the same
customer within one hour raises no repeated-failure anomaly on the first 5
events and exactly one on the 6th; in general the repeated-failure anomaly
fires exactly when the per-customer failure count exceeds 5. -/
theorem repeated_failure_anomaly :
    (detect_run true [] sixFailures).1
        = [[], [], [], [], [], [multiple_failures_msg (some "CUSTOMER_001")]]
    ∧ (∀ (st : RedisState) (now : ℕ) (event_type : String) (event_data : EventData),
        event_data.status = some "failure" →
          (multiple_failures_msg event_data.customer_id
              ∈ (detect_anomalies true st now event_type event_data).1
            ↔ 5 < (redis_incr st now (failure_key event_data)).1)) :=
  ⟨by decide, detect_anomalies_failure_iff⟩

/-- Witness for `repeated_failure_anomaly` at the concrete failure event. -/
theorem repeated_failure_anomaly_witness :
    multiple_failures_msg failureEvent.customer_id
        ∈ (detect_anomalies true [] 0 "compliance-summary-generated" failureEvent).1
      ↔ 5 < (redis_incr [] 0 (failure_key failureEvent)).1 :=
  repeated_failure_anomaly.2 [] 0 "compliance-summary-generated" failureEvent rfl

/-- C7: `log_event` reports `logged: true` to its caller for every event and
every combination of database/cache availability, and with the cache backend
unavailable `_detect_anomalies` returns no anomalies and leaves the counters
untouched instead of failing the audit write. -/
theorem log_event_always_succeeds :
    ∀ (env : AuditEnv) (st : AuditState) (now : ℕ)
      (event_type : String) (event_data : EventData),
      (log_event env st now event_type event_data).1.logged = true
      ∧ detect_anomalies false st.redis now event_type event_data = ([], st.redis) := by
  intro env st now et ed
  refine ⟨rfl, ?_⟩
  simp [detect_anomalies]

end SAMAAuditLoggingAgent

namespace SAMAKYCValidationAgent

/-- A successfully retrieved document carries the requested id (the database
row is selected by id; the ChromaDB result is rebuilt around the id). -/
theorem retrieve_document_id (db_session db_ok : Bool) (db : List DocumentRow)
    (chroma : List ChromaDoc) (document_id : String) (doc : RetrievedDocument)
    (h : retrieve_document db_session db_ok db chroma document_id = some doc) :
    doc.id = document_id := by
  unfold retrieve_document at h
  split at h
  · rename_i d hd
    cases h
    by_cases hdb : (db_session && db_ok)
    · rw [if_pos hdb] at hd
      have hp := List.find?_some hd
      exact eq_of_beq hp
    · rw [if_neg hdb] at hd
      cases hd
  · split at h
    · rename_i c _
      cases h
      rfl
    · cases h

/-- C5: on a cache miss, when no store yields the document `validate_kyc`
returns the `Document not found` error and leaves the state untouched (no
validation performed, nothing stored, nothing published); when a store
yields the document it returns a completed validation result instead. -/
theorem validate_kyc_document_not_found :
    ∀ (checks : TypeCheckers) (env : KYCEnv) (st : KYCState)
      (now document_id customer_id : String),
      cache_lookup env st document_id = none →
        (retrieve_document env.db_session env.db_ok st.db st.chroma document_id = none →
          validate_kyc checks env st now document_id customer_id
            = (.error "Document not found", st))
        ∧ (∀ doc,
            retrieve_document env.db_session env.db_ok st.db st.chroma document_id
                = some doc →
              (validate_kyc checks env st now document_id customer_id).1
                = .completed (perform_validation checks (document_id ++ "_" ++ now)
                    doc customer_id)) := by
  intro checks env st now did cid hcache
  constructor
  · intro hret
    simp [validate_kyc, hcache, hret]
  · intro doc hret
    simp [validate_kyc, hcache, hret]

/-- Witness for `validate_kyc_document_not_found`: an unknown document id
errors against the empty stores; the example document validates. -/
theorem validate_kyc_document_not_found_witness :
    validate_kyc passChecks ⟨true, true, true⟩ emptyState "t0" "missing_doc" "CUSTOMER_001"
      = (.error "Document not found", emptyState)
    ∧ (validate_kyc passChecks ⟨true, true, true⟩ exampleState "t0" "doc_reg_001"
        "CUSTOMER_001").1
      = .completed (perform_validation passChecks ("doc_reg_001" ++ "_" ++ "t0")
          ⟨"doc_reg_001", "Commercial Registration 1010345678 SAR",
           some "commercial_registration", some "CUSTOMER_001"⟩ "CUSTOMER_001") :=
  ⟨(validate_kyc_document_not_found passChecks ⟨true, true, true⟩ emptyState
      "t0" "missing_doc" "CUSTOMER_001" rfl).1 rfl,
   (validate_kyc_document_not_found passChecks ⟨true, true, true⟩ exampleState
      "t0" "doc_reg_001" "CUSTOMER_001" rfl).2
      ⟨"doc_reg_001", "Commercial Registration 1010345678 SAR",
       some "commercial_registration", some "CUSTOMER_001"⟩ rfl⟩

/-- C6: every completed (non-cache-hit, non-error) `validate_kyc` call
appends exactly one `kyc-validation-completed` message keyed by the document
id, followed by a `compliance-summary-requested` message keyed by the
customer id exactly when the validation status is `passed`. -/
theorem validate_kyc_event_publication :
    ∀ (checks : TypeCheckers) (env : KYCEnv) (st : KYCState)
      (now document_id customer_id : String) (doc : RetrievedDocument),
      cache_lookup env st document_id = none →
      retrieve_document env.db_session env.db_ok st.db st.chroma document_id = some doc →
        (validate_kyc checks env st now document_id customer_id).2.bus
          = st.bus
            ++ [⟨"kyc-validation-completed",
                 (perform_validation checks (document_id ++ "_" ++ now) doc customer_id).document_id,
                 completed_payload now
                   (perform_validation checks (document_id ++ "_" ++ now) doc customer_id)⟩]
            ++ (if (perform_validation checks (document_id ++ "_" ++ now) doc
                      customer_id).validation_status = "passed"
                then [⟨"compliance-summary-requested",
                      (perform_validation checks (document_id ++ "_" ++ now) doc
                        customer_id).customer_id,
                      summary_request_payload now
                        (perform_validation checks (document_id ++ "_" ++ now) doc customer_id)⟩]
                else [])
        ∧ (perform_validation checks (document_id ++ "_" ++ now) doc customer_id).document_id
            = document_id
        ∧ (perform_validation checks (document_id ++ "_" ++ now) doc customer_id).customer_id
            = customer_id := by
  intro checks env st now did cid doc hcache hret
  refine ⟨?_, ?_, rfl⟩
  · simp only [validate_kyc, hcache, hret]
    by_cases hp : ((perform_validation checks (did ++ "_" ++ now) doc cid).validation_status
        == "passed")
    · have hpe := eq_of_beq hp
      by_cases hra : env.redis_available <;>
        simp [hra, send_events, send_event, hp, hpe]
    · have hpe : ¬ (perform_validation checks (did ++ "_" ++ now) doc cid).validation_status
          = "passed" := by
        intro he
        exact absurd (by simp [he]) hp
      by_cases hra : env.redis_available <;>
        simp [hra, send_events, send_event, hp, hpe]
  · have := retrieve_document_id env.db_session env.db_ok st.db st.chroma did doc hret
    simp [perform_validation, this]

/-- Witness for `validate_kyc_event_publication` at the example state and a
passing rule check. -/
theorem validate_kyc_event_publication_witness :
    (validate_kyc passChecks ⟨true, true, true⟩ exampleState "t0" "doc_reg_001"
        "CUSTOMER_001").2.bus
      = exampleState.bus
        ++ [⟨"kyc-validation-completed",
             (perform_validation passChecks ("doc_reg_001" ++ "_" ++ "t0")
               ⟨"doc_reg_001", "Commercial Registration 1010345678 SAR",
                some "commercial_registration", some "CUSTOMER_001"⟩
               "CUSTOMER_001").document_id,
             completed_payload "t0"
               (perform_validation passChecks ("doc_reg_001" ++ "_" ++ "t0")
                 ⟨"doc_reg_001", "Commercial Registration 1010345678 SAR",
                  some "commercial_registration", some "CUSTOMER_001"⟩ "CUSTOMER_001")⟩]
        ++ (if (perform_validation passChecks ("doc_reg_001" ++ "_" ++ "t0")
                  ⟨"doc_reg_001", "Commercial Registration 1010345678 SAR",
                   some "commercial_registration", some "CUSTOMER_001"⟩
                  "CUSTOMER_001").validation_status = "passed"
            then [⟨"compliance-summary-requested",
                  (perform_validation passChecks ("doc_reg_001" ++ "_" ++ "t0")
                    ⟨"doc_reg_001", "Commercial Registration 1010345678 SAR",
                     some "commercial_registration", some "CUSTOMER_001"⟩
                    "CUSTOMER_001").customer_id,
                  summary_request_payload "t0"
                    (perform_validation passChecks ("doc_reg_001" ++ "_" ++ "t0")
                      ⟨"doc_reg_001", "Commercial Registration 1010345678 SAR",
                       some "commercial_registration", some "CUSTOMER_001"⟩
                      "CUSTOMER_001")⟩]
            else [])
    ∧ (perform_validation passChecks ("doc_reg_001" ++ "_" ++ "t0")
        ⟨"doc_reg_001", "Commercial Registration 1010345678 SAR",
         some "commercial_registration", some "CUSTOMER_001"⟩
        "CUSTOMER_001").document_id = "doc_reg_001"
    ∧ (perform_validation passChecks ("doc_reg_001" ++ "_" ++ "t0")
        ⟨"doc_reg_001", "Commercial Registration 1010345678 SAR",
         some "commercial_registration", some "CUSTOMER_001"⟩
        "CUSTOMER_001").customer_id = "CUSTOMER_001" :=
  validate_kyc_event_publication passChecks ⟨true, true, true⟩ exampleState "t0"
    "doc_reg_001" "CUSTOMER_001"
    ⟨"doc_reg_001", "Commercial Registration 1010345678 SAR",
     some "commercial_registration", some "CUSTOMER_001"⟩ rfl rfl

end SAMAKYCValidationAgent

end Compliance
